import Mathlib

/-!
Shallow embedding of the Peblar EV-charger integration
(`homeassistant/components/peblar/__init__.py` and
`homeassistant/components/peblar/select.py`).

Vendor-library calls (login, system information, REST-API enablement,
the per-coordinator fetches, the smart-charging write) are network
effects; they are embedded as injected `Except` results carried by an
environment record, so every fault-injection combination is a plain
value the theorems can quantify over.  Host-framework machinery that is
not part of this repository fragment (the data-update coordinator base
class, `async_request_refresh`, `async_unload_platforms`) is modelled
from the spec and marked as such on each definition.
-/

/-- Errors raised by the external `peblar` vendor library: the library
exposes `PeblarConnectionError` and `PeblarAuthenticationError` as
refinements of its base `PeblarError`; any other vendor failure is the
bare base error.  Each carries a message. -/
inductive PeblarLibError where
  | connectionError (message : String)
  | authenticationError (message : String)
  | otherError (message : String)
deriving DecidableEq

/-- Failure of one coordinator refresh (the host wraps fetch failures
in an update-failed error carrying a message). -/
inductive RefreshError where
  | updateFailed (message : String)
deriving DecidableEq

/-- How `async_setup_entry` can abort: the two host-classified signals
raised by the `try`/`except` block in `__init__.py`, plus first-refresh
failure (the host's `async_config_entry_first_refresh` turns a failed
first refresh into a setup failure; the spec leaves the retry policy to
the platform, so the refresh error is carried as-is). -/
inductive SetupError where
  | ConfigEntryNotReady (message : String)
  | ConfigEntryAuthFailed
  | FirstRefreshFailed (e : RefreshError)
deriving DecidableEq

/-- Immutable system-information snapshot returned by the vendor
client, with the fields `__init__.py` reads. -/
structure SystemInformation where
  ethernet_mac_address : String
  wlan_mac_address : String
  product_serial_number : String
  product_vendor_name : String
  product_number : String
  product_model_name : String
deriving DecidableEq

/-- One firmware-version record (the setup code reads
`version_coordinator.data.current.firmware`). -/
structure PeblarVersionInformation where
  firmware : String
deriving DecidableEq

/-- Version payload fetched by the version coordinator. -/
structure PeblarVersions where
  current : PeblarVersionInformation
deriving DecidableEq

/-- Meter/telemetry payload fetched by the data coordinator.  Its
fields live in the external vendor library and are never inspected by
the code under verification, so an opaque numeric payload stands in. -/
structure PeblarData where
  payload : Nat
deriving DecidableEq

/-- The vendor library's smart-charging-mode enumeration; the spec and
`select.py` fix the enumerated set. -/
inductive SmartChargingMode where
  | default
  | fast_solar
  | pure_solar
  | scheduled
  | smart_solar
deriving DecidableEq

/-- The string value of a smart-charging mode (Python's `.value`). -/
def SmartChargingMode.value : SmartChargingMode → String
  | .default => "default"
  | .fast_solar => "fast_solar"
  | .pure_solar => "pure_solar"
  | .scheduled => "scheduled"
  | .smart_solar => "smart_solar"

/-- Python's `SmartChargingMode(mode)` enum lookup by value: `some` the
member whose value is the string, `none` when the lookup would raise a
value error. -/
def SmartChargingMode.ofString (s : String) : Option SmartChargingMode :=
  if s = "default" then some .default
  else if s = "fast_solar" then some .fast_solar
  else if s = "pure_solar" then some .pure_solar
  else if s = "scheduled" then some .scheduled
  else if s = "smart_solar" then some .smart_solar
  else none

/-- User-configuration payload fetched by the user-configuration
coordinator; `select.py` reads its optional `smart_charging` field. -/
structure PeblarUserConfiguration where
  smart_charging : Option SmartChargingMode
deriving DecidableEq

/-- Modelled from the spec: the host `DataUpdateCoordinator` state that
`coordinator.py` (not under `src/`) instantiates three times — the last
successfully fetched payload, the last recorded error, and the
success flag. -/
structure Coordinator (α : Type) where
  data : Option α
  last_exception : Option RefreshError
  last_update_success : Bool
deriving DecidableEq

/-- Modelled from the spec: one coordinator refresh — on fetch success
the cached snapshot is replaced and the error state reset; on fetch
failure the previous snapshot is retained and the error recorded. -/
def Coordinator.refresh {α : Type} (c : Coordinator α)
    (fetch : Except RefreshError α) : Coordinator α :=
  match fetch with
  | .ok a => { data := some a, last_exception := none, last_update_success := true }
  | .error e => { c with last_exception := some e, last_update_success := false }

/-- Modelled from the spec: a freshly constructed coordinator holds no
snapshot yet. -/
def Coordinator.new (α : Type) : Coordinator α :=
  { data := none, last_exception := none, last_update_success := false }

/-- Modelled from the spec: the host's
`async_config_entry_first_refresh` — runs one refresh and fails setup
when the fetch fails. -/
def Coordinator.async_config_entry_first_refresh {α : Type}
    (c : Coordinator α) (fetch : Except RefreshError α) :
    Except RefreshError (Coordinator α) :=
  match fetch with
  | .ok a => .ok (c.refresh (.ok a))
  | .error e => .error e

/-- `asyncio.gather` over the three first refreshes: all three run; if
any fails the exception propagates out of the `await`, otherwise all
three results are returned. -/
def gather3 {ε α β γ : Type} :
    Except ε α → Except ε β → Except ε γ → Except ε (α × β × γ)
  | .error e, _, _ => .error e
  | .ok _, .error e, _ => .error e
  | .ok _, .ok _, .error e => .error e
  | .ok a, .ok b, .ok c => .ok (a, b, c)

/-- Whether an `Except` computation succeeded. -/
def exceptIsOk {ε α : Type} : Except ε α → Bool
  | .ok _ => true
  | .error _ => false

/-- Modelled from the spec: the integration domain constant from
`const.py`, which is not under `src/`; the integration is keyed by the
vendor name. -/
def DOMAIN : String := "peblar"

/-- Modelled from the spec: the device registry's network-MAC
connection-type tag (host constant, not under `src/`). -/
def CONNECTION_NETWORK_MAC : String := "mac"

/-- The host entity platforms the integration forwards setup to. -/
inductive Platform where
  | binary_sensor
  | button
  | number
  | select
  | sensor
  | switch
  | update
deriving DecidableEq

/-- `PLATFORMS` from `__init__.py`. -/
def PLATFORMS : List Platform :=
  [.binary_sensor, .button, .number, .select, .sensor, .switch, .update]

/-- The record passed to `device_registry.async_get_or_create` in
`__init__.py`, field for field. -/
structure DeviceRegistration where
  config_entry_id : String
  configuration_url : String
  connections : Finset (String × String)
  identifiers : Finset (String × String)
  manufacturer : String
  model_id : String
  model : String
  name : String
  serial_number : String
  sw_version : String
deriving DecidableEq

/-- Modelled from the spec: `PeblarRuntimeData` lives in
`coordinator.py` (not under `src/`); its shape is fixed by the keyword
arguments `__init__.py` constructs it with, the source's spelling of
`user_configuraton_coordinator` included. -/
structure PeblarRuntimeData where
  data_coordinator : Coordinator PeblarData
  system_information : SystemInformation
  user_configuraton_coordinator : Coordinator PeblarUserConfiguration
  version_coordinator : Coordinator PeblarVersions
deriving DecidableEq

/-- Environment of one `async_setup_entry` run: the config-entry data
plus the injected outcome of every network effect the run can make. -/
structure SetupEnv where
  host : String
  password : String
  entry_id : String
  login_result : Except PeblarLibError Unit
  system_information_result : Except PeblarLibError SystemInformation
  rest_api_result : Except PeblarLibError Unit
  meter_refresh : Except RefreshError PeblarData
  user_config_refresh : Except RefreshError PeblarUserConfiguration
  version_refresh : Except RefreshError PeblarVersions

/-- Observable steps of a setup run, in the order they are performed. -/
inductive Ev where
  | login
  | fetchSystemInformation
  | enableRestApi
  | constructCoordinators
  | firstRefreshes
  | setRuntimeData
  | registerDevice
  | forwardPlatforms
deriving DecidableEq

/-- Everything a successful setup run produced: the runtime data stored
on the entry, the device-registry record, and the platforms forwarded
to. -/
structure SetupSuccess where
  runtime_data : PeblarRuntimeData
  device_registration : DeviceRegistration
  forwarded_platforms : List Platform
deriving DecidableEq

/-- The `except` chain of `__init__.py`: a connection error from the
vendor library raises not-ready, an authentication error raises
auth-failed, any other vendor error raises not-ready. -/
def classifyPeblarError : PeblarLibError → SetupError
  | .connectionError _ => .ConfigEntryNotReady "Could not connect to Peblar charger"
  | .authenticationError _ => .ConfigEntryAuthFailed
  | .otherError _ =>
      .ConfigEntryNotReady "Unknown error occurred while connecting to Peblar charger"

/-- The first vendor error raised inside the `try` block (login, then
system information, then REST-API enablement; later calls never run
once an earlier one raised). -/
def authPhaseError (env : SetupEnv) : Option PeblarLibError :=
  match env.login_result with
  | .error e => some e
  | .ok _ =>
    match env.system_information_result with
    | .error e => some e
    | .ok _ =>
      match env.rest_api_result with
      | .error e => some e
      | .ok _ => none

/-- `async_setup_entry` from `__init__.py`: login, fetch system
information and enable the REST API under one `except` chain; construct
the three coordinators; gather their first refreshes; store runtime
data; register the device; forward the platforms.  Returns the setup
outcome together with the trace of steps performed. -/
def async_setup_entry (env : SetupEnv) :
    Except SetupError SetupSuccess × List Ev :=
  match env.login_result with
  | .error e => (.error (classifyPeblarError e), [.login])
  | .ok _ =>
  match env.system_information_result with
  | .error e => (.error (classifyPeblarError e), [.login, .fetchSystemInformation])
  | .ok system_information =>
  match env.rest_api_result with
  | .error e =>
      (.error (classifyPeblarError e),
       [.login, .fetchSystemInformation, .enableRestApi])
  | .ok _ =>
  let meter_coordinator := Coordinator.new PeblarData
  let user_configuration_coordinator := Coordinator.new PeblarUserConfiguration
  let version_coordinator := Coordinator.new PeblarVersions
  match gather3
      (meter_coordinator.async_config_entry_first_refresh env.meter_refresh)
      (user_configuration_coordinator.async_config_entry_first_refresh
        env.user_config_refresh)
      (version_coordinator.async_config_entry_first_refresh env.version_refresh) with
  | .error e =>
      (.error (.FirstRefreshFailed e),
       [.login, .fetchSystemInformation, .enableRestApi, .constructCoordinators,
        .firstRefreshes])
  | .ok (meter_coordinator, user_configuration_coordinator, version_coordinator) =>
  let runtime_data : PeblarRuntimeData :=
    { data_coordinator := meter_coordinator
      system_information := system_information
      user_configuraton_coordinator := user_configuration_coordinator
      version_coordinator := version_coordinator }
  let device_registration : DeviceRegistration :=
    { config_entry_id := env.entry_id
      configuration_url := "http://" ++ env.host
      connections :=
        {(CONNECTION_NETWORK_MAC, system_information.ethernet_mac_address),
         (CONNECTION_NETWORK_MAC, system_information.wlan_mac_address)}
      identifiers := {(DOMAIN, system_information.product_serial_number)}
      manufacturer := system_information.product_vendor_name
      model_id := system_information.product_number
      model := system_information.product_model_name
      name := "Peblar EV Charger"
      serial_number := system_information.product_serial_number
      sw_version :=
        (version_coordinator.data.getD { current := { firmware := "" } }).current.firmware }
  (.ok
    { runtime_data := runtime_data
      device_registration := device_registration
      forwarded_platforms := PLATFORMS },
   [.login, .fetchSystemInformation, .enableRestApi, .constructCoordinators,
    .firstRefreshes, .setRuntimeData, .registerDevice, .forwardPlatforms])

/-- Host-visible state of a config entry while it is loaded: which
entity platforms are set up, and whether the charger HTTP session is
open. -/
structure EntryState where
  set_up_platforms : List Platform
  session_open : Bool
deriving DecidableEq

/-- Modelled from the spec: the host's `async_unload_platforms`
(homeassistant core, not under `src/`) — tears down each of the given
entity platforms for the entry and, on success, releases the resources
bound to the entry, the charger HTTP session among them, returning
whether the teardown succeeded. -/
def async_unload_platforms (st : EntryState) (teardown_ok : Bool)
    (platforms : List Platform) : Bool × EntryState :=
  if teardown_ok then
    (true,
     { set_up_platforms := st.set_up_platforms.removeAll platforms
       session_open := false })
  else (false, st)

/-- `async_unload_entry` from `__init__.py`: returns the result of
unloading the integration's platforms. -/
def async_unload_entry (st : EntryState) (teardown_ok : Bool) :
    Bool × EntryState :=
  async_unload_platforms st teardown_ok PLATFORMS

/-- Failures `async_select_option` can propagate: the value error
Python's `SmartChargingMode(mode)` raises on an unknown option string,
or a vendor-library error from the write call. -/
inductive SelectFailure where
  | valueError (option : String)
  | peblarError (e : PeblarLibError)
deriving DecidableEq

/-- The vendor client handle shared by the write path: the injected
response of its smart-charging write, plus the log of the write calls
issued on it (so theorems can observe exactly which arguments the
client was called with). -/
structure Peblar where
  respond_smart_charging : SmartChargingMode → Except PeblarLibError Unit
  smart_charging_calls : List SmartChargingMode

/-- The vendor client's `smart_charging(mode)` write: the call is
issued (logged) and the injected response returned. -/
def Peblar.smart_charging (x : Peblar) (m : SmartChargingMode) :
    Except PeblarLibError Unit × Peblar :=
  (x.respond_smart_charging m,
   { x with smart_charging_calls := x.smart_charging_calls ++ [m] })

/-- The user-configuration coordinator as entities see it after a
successful first refresh: the vendor client it wraps, the cached
snapshot, the number of out-of-band refreshes requested, and the
injected outcome of the next requested fetch. -/
structure PeblarUserConfigurationDataUpdateCoordinator where
  peblar : Peblar
  data : PeblarUserConfiguration
  refresh_requests : Nat
  next_fetch : Except RefreshError PeblarUserConfiguration

/-- Modelled from the spec: the host's `async_request_refresh`
(not under `src/`) — requests exactly one out-of-band refresh of this
coordinator; on fetch success the snapshot is replaced with the fetched
configuration, on failure the previous snapshot is retained. -/
def PeblarUserConfigurationDataUpdateCoordinator.async_request_refresh
    (c : PeblarUserConfigurationDataUpdateCoordinator) :
    PeblarUserConfigurationDataUpdateCoordinator :=
  { c with
    refresh_requests := c.refresh_requests + 1
    data :=
      match c.next_fetch with
      | .ok d => d
      | .error _ => c.data }

/-- `PeblarSelectEntityDescription` from `select.py`: the static
declarative record binding a key, the allowed options, the pure read
accessor, and the effectful write accessor. -/
structure PeblarSelectEntityDescription where
  key : String
  translation_key : String
  options : List String
  current_fn : PeblarUserConfiguration → Option String
  select_fn : Peblar → String → Except SelectFailure Unit × Peblar

/-- The smart-charging select description from `select.py`'s
`DESCRIPTIONS` list.  Its read accessor returns the configured mode's
string value, or `none` when the field is unset; its write accessor
parses the option string into the vendor enumeration and issues the
client's smart-charging write. -/
def smartChargingDescription : PeblarSelectEntityDescription :=
  { key := "smart_charging"
    translation_key := "smart_charging"
    options := ["default", "fast_solar", "pure_solar", "scheduled", "smart_solar"]
    current_fn := fun x =>
      match x.smart_charging with
      | some m => some m.value
      | none => none
    select_fn := fun x mode =>
      match SmartChargingMode.ofString mode with
      | none => (.error (.valueError mode), x)
      | some m =>
        match x.smart_charging m with
        | (.ok _, x') => (.ok (), x')
        | (.error e, x') => (.error (.peblarError e), x') }

/-- `DESCRIPTIONS` from `select.py`: the single smart-charging select. -/
def DESCRIPTIONS : List PeblarSelectEntityDescription :=
  [smartChargingDescription]

/-- `PeblarSelectEntity` from `select.py`: its description, the
user-configuration coordinator it subscribes to, and the attributes its
constructor derives from the config entry. -/
structure PeblarSelectEntity where
  entity_description : PeblarSelectEntityDescription
  coordinator : PeblarUserConfigurationDataUpdateCoordinator
  attr_unique_id : String
  attr_device_info_identifiers : Finset (String × String)

/-- `current_option` from `select.py`: the description's read accessor
applied to the coordinator's snapshot. -/
def PeblarSelectEntity.current_option (e : PeblarSelectEntity) : Option String :=
  e.entity_description.current_fn e.coordinator.data

/-- `async_select_option` from `select.py`: await the description's
write accessor on the shared client with the chosen option; if it
raises, the error propagates and nothing else runs; otherwise request
one refresh of the coordinator. -/
def PeblarSelectEntity.async_select_option (e : PeblarSelectEntity)
    (option : String) : Except SelectFailure Unit × PeblarSelectEntity :=
  match e.entity_description.select_fn e.coordinator.peblar option with
  | (.error err, p') =>
      (.error err, { e with coordinator := { e.coordinator with peblar := p' } })
  | (.ok _, p') =>
      (.ok (),
       { e with coordinator :=
          { e.coordinator with peblar := p' }.async_request_refresh })

/-- System information of the spec's concrete scenario: serial
`ABC123`, Ethernet MAC `aa:bb:cc:dd:ee:ff`, WLAN MAC
`11:22:33:44:55:66`. -/
def sampleSystemInformation : SystemInformation :=
  { ethernet_mac_address := "aa:bb:cc:dd:ee:ff"
    wlan_mac_address := "11:22:33:44:55:66"
    product_serial_number := "ABC123"
    product_vendor_name := "Peblar"
    product_number := "6004-123456"
    product_model_name := "Peblar Home" }

/-- A concrete version payload. -/
def sampleVersions : PeblarVersions := { current := { firmware := "1.6.1" } }

/-- A setup environment in which every injected effect succeeds. -/
def sampleEnvOk : SetupEnv :=
  { host := "192.168.1.2"
    password := "hunter2"
    entry_id := "entry1"
    login_result := .ok ()
    system_information_result := .ok sampleSystemInformation
    rest_api_result := .ok ()
    meter_refresh := .ok { payload := 0 }
    user_config_refresh := .ok { smart_charging := some .default }
    version_refresh := .ok sampleVersions }

/-- The setup outcome `sampleEnvOk` produces. -/
def sampleSuccess : SetupSuccess :=
  { runtime_data :=
      { data_coordinator :=
          { data := some { payload := 0 }
            last_exception := none
            last_update_success := true }
        system_information := sampleSystemInformation
        user_configuraton_coordinator :=
          { data := some { smart_charging := some .default }
            last_exception := none
            last_update_success := true }
        version_coordinator :=
          { data := some sampleVersions
            last_exception := none
            last_update_success := true } }
    device_registration :=
      { config_entry_id := "entry1"
        configuration_url := "http://192.168.1.2"
        connections :=
          {(CONNECTION_NETWORK_MAC, "aa:bb:cc:dd:ee:ff"),
           (CONNECTION_NETWORK_MAC, "11:22:33:44:55:66")}
        identifiers := {(DOMAIN, "ABC123")}
        manufacturer := "Peblar"
        model_id := "6004-123456"
        model := "Peblar Home"
        name := "Peblar EV Charger"
        serial_number := "ABC123"
        sw_version := "1.6.1" }
    forwarded_platforms := PLATFORMS }

/-- The step trace of a fully successful setup run. -/
def sampleFullTrace : List Ev :=
  [.login, .fetchSystemInformation, .enableRestApi, .constructCoordinators,
   .firstRefreshes, .setRuntimeData, .registerDevice, .forwardPlatforms]

/-- `sampleEnvOk` with the login raising an authentication error. -/
def sampleEnvAuthFail : SetupEnv :=
  { sampleEnvOk with login_result := .error (.authenticationError "invalid password") }

/-- `sampleEnvOk` with the system-information fetch raising a
connection error. -/
def sampleEnvConnFail : SetupEnv :=
  { sampleEnvOk with
    system_information_result := .error (.connectionError "timeout") }

/-- `sampleEnvOk` with the user-configuration first refresh failing. -/
def sampleEnvRefreshFail : SetupEnv :=
  { sampleEnvOk with user_config_refresh := .error (.updateFailed "timeout") }

/-- A vendor client whose smart-charging write succeeds. -/
def samplePeblar : Peblar :=
  { respond_smart_charging := fun _ => .ok (), smart_charging_calls := [] }

/-- A vendor client whose smart-charging write raises a vendor error. -/
def samplePeblarFailing : Peblar :=
  { respond_smart_charging := fun _ => .error (.otherError "boom")
    smart_charging_calls := [] }

/-- A user-configuration coordinator whose next requested fetch returns
the configuration with the pure-solar mode applied. -/
def sampleCoordinator : PeblarUserConfigurationDataUpdateCoordinator :=
  { peblar := samplePeblar
    data := { smart_charging := some .default }
    refresh_requests := 0
    next_fetch := .ok { smart_charging := some .pure_solar } }

/-- A smart-charging select entity over `sampleCoordinator`. -/
def sampleEntity : PeblarSelectEntity :=
  { entity_description := smartChargingDescription
    coordinator := sampleCoordinator
    attr_unique_id := "entry1-smart_charging"
    attr_device_info_identifiers := {(DOMAIN, "ABC123")} }

/-- `sampleEntity` over a snapshot with the smart-charging field
unset. -/
def sampleEntityUnset : PeblarSelectEntity :=
  { sampleEntity with
    coordinator := { sampleCoordinator with data := { smart_charging := none } } }

/-- `sampleEntity` over the failing vendor client. -/
def sampleEntityFailing : PeblarSelectEntity :=
  { sampleEntity with
    coordinator := { sampleCoordinator with peblar := samplePeblarFailing } }

/-- An entry state as left by a successful setup: all platforms set up,
session open. -/
def sampleEntryState : EntryState :=
  { set_up_platforms := PLATFORMS, session_open := true }

/-- Claim C1: for every setup run and every error-injection combination
in which the authentication / system-information / REST-API-enablement
phase raises a vendor error, setup fails exactly per the taxonomy: a
vendor connection error aborts with not-ready, a vendor authentication
error aborts with auth-failed, and any other vendor error aborts with
not-ready. -/
theorem spec_C1 (env : SetupEnv) (e : PeblarLibError)
    (h : authPhaseError env = some e) :
    (async_setup_entry env).1 =
      Except.error
        (match e with
         | .connectionError _ =>
             SetupError.ConfigEntryNotReady "Could not connect to Peblar charger"
         | .authenticationError _ => SetupError.ConfigEntryAuthFailed
         | .otherError _ =>
             SetupError.ConfigEntryNotReady
               "Unknown error occurred while connecting to Peblar charger") := by
  obtain ⟨host, pw, eid, lr, sr, rr, mr, ur, vr⟩ := env
  rcases lr with a | u
  · have ha : a = e := by simpa [authPhaseError] using h
    subst ha
    cases a <;> rfl
  rcases sr with a | si
  · have ha : a = e := by simpa [authPhaseError] using h
    subst ha
    cases a <;> rfl
  rcases rr with a | u2
  · have ha : a = e := by simpa [authPhaseError] using h
    subst ha
    cases a <;> rfl
  · exact absurd h (by simp [authPhaseError])

/-- Claim C1 witness: injecting an authentication error at login makes
setup fail with auth-failed. -/
theorem spec_C1_witness :
    authPhaseError sampleEnvAuthFail =
      some (.authenticationError "invalid password") ∧
    (async_setup_entry sampleEnvAuthFail).1 =
      Except.error SetupError.ConfigEntryAuthFailed :=
  ⟨rfl, spec_C1 sampleEnvAuthFail (.authenticationError "invalid password") rfl⟩

/-- Claim C2: in every setup run that reaches the first refreshes,
setup returns successfully exactly when all three concurrently gathered
first refreshes succeed; any first-refresh failure makes
`async_setup_entry` fail. -/
theorem spec_C2 (env : SetupEnv) (h : authPhaseError env = none) :
    (exceptIsOk (async_setup_entry env).1 = true ↔
      (exceptIsOk env.meter_refresh = true ∧
       exceptIsOk env.user_config_refresh = true ∧
       exceptIsOk env.version_refresh = true)) := by
  obtain ⟨host, pw, eid, lr, sr, rr, mr, ur, vr⟩ := env
  cases lr <;> cases sr <;> cases rr <;> simp_all [authPhaseError]
  cases mr <;> cases ur <;> cases vr <;>
    simp [async_setup_entry, gather3, exceptIsOk,
      Coordinator.async_config_entry_first_refresh]

/-- Claim C2 witness: with a failing user-configuration first refresh,
setup does not return success. -/
theorem spec_C2_witness :
    authPhaseError sampleEnvRefreshFail = none ∧
    (exceptIsOk (async_setup_entry sampleEnvRefreshFail).1 = true ↔
      (exceptIsOk sampleEnvRefreshFail.meter_refresh = true ∧
       exceptIsOk sampleEnvRefreshFail.user_config_refresh = true ∧
       exceptIsOk sampleEnvRefreshFail.version_refresh = true)) :=
  ⟨rfl, spec_C2 sampleEnvRefreshFail rfl⟩

/-- Claim C3: a successful select-option write first issues the
description's write accessor with exactly the chosen option string (the
parsed mode's string value is the option, and exactly that mode is
appended to the client's write-call log), then requests exactly one
refresh of the user-configuration coordinator, whose data then reflects
the freshly fetched configuration. -/
theorem spec_C3 (e : PeblarSelectEntity) (opt : String) (m : SmartChargingMode)
    (hdesc : e.entity_description ∈ DESCRIPTIONS)
    (hopt : SmartChargingMode.ofString opt = some m)
    (hok : e.coordinator.peblar.respond_smart_charging m = .ok ()) :
    m.value = opt ∧
    (e.async_select_option opt).1 = .ok () ∧
    (e.async_select_option opt).2.coordinator.peblar.smart_charging_calls =
      e.coordinator.peblar.smart_charging_calls ++ [m] ∧
    (e.async_select_option opt).2.coordinator.refresh_requests =
      e.coordinator.refresh_requests + 1 ∧
    (∀ cfg, e.coordinator.next_fetch = .ok cfg →
      (e.async_select_option opt).2.coordinator.data = cfg) := by
  have hd : e.entity_description = smartChargingDescription := by
    simpa [DESCRIPTIONS] using hdesc
  have hval : m.value = opt := by
    unfold SmartChargingMode.ofString at hopt
    split_ifs at hopt <;> cases hopt <;> simp_all [SmartChargingMode.value]
  refine ⟨hval, ?_, ?_, ?_, ?_⟩
  · simp [PeblarSelectEntity.async_select_option, hd, smartChargingDescription,
      hopt, Peblar.smart_charging, hok,
      PeblarUserConfigurationDataUpdateCoordinator.async_request_refresh]
  · simp [PeblarSelectEntity.async_select_option, hd, smartChargingDescription,
      hopt, Peblar.smart_charging, hok,
      PeblarUserConfigurationDataUpdateCoordinator.async_request_refresh]
  · simp [PeblarSelectEntity.async_select_option, hd, smartChargingDescription,
      hopt, Peblar.smart_charging, hok,
      PeblarUserConfigurationDataUpdateCoordinator.async_request_refresh]
  · intro cfg hcfg
    simp [PeblarSelectEntity.async_select_option, hd, smartChargingDescription,
      hopt, Peblar.smart_charging, hok,
      PeblarUserConfigurationDataUpdateCoordinator.async_request_refresh, hcfg]

/-- Claim C3 witness: the spec's concrete scenario — selecting
`pure_solar` issues exactly that mode to the client and requests one
refresh, after which the coordinator's data carries the new mode. -/
theorem spec_C3_witness :
    SmartChargingMode.ofString "pure_solar" = some SmartChargingMode.pure_solar ∧
    (sampleEntity.async_select_option "pure_solar").1 = .ok () ∧
    (sampleEntity.async_select_option "pure_solar").2.coordinator.peblar.smart_charging_calls =
      [SmartChargingMode.pure_solar] ∧
    (sampleEntity.async_select_option "pure_solar").2.coordinator.refresh_requests = 1 ∧
    (sampleEntity.async_select_option "pure_solar").2.coordinator.data =
      { smart_charging := some SmartChargingMode.pure_solar } := by
  have h := spec_C3 sampleEntity "pure_solar" .pure_solar
    (by simp [sampleEntity, DESCRIPTIONS]) (by decide) rfl
  exact ⟨by decide, h.2.1, h.2.2.1, h.2.2.2.1, h.2.2.2.2 _ rfl⟩

/-- Claim C4: for every user-configuration snapshot, the select
entity's `current_option` returns `none` when the smart-charging field
is unset, and the field's string value when it is set; it never
fails. -/
theorem spec_C4 (e : PeblarSelectEntity)
    (hdesc : e.entity_description ∈ DESCRIPTIONS) :
    (e.coordinator.data.smart_charging = none → e.current_option = none) ∧
    (∀ m, e.coordinator.data.smart_charging = some m →
      e.current_option = some m.value) := by
  have hd : e.entity_description = smartChargingDescription := by
    simpa [DESCRIPTIONS] using hdesc
  constructor
  · intro h
    simp [PeblarSelectEntity.current_option, hd, smartChargingDescription, h]
  · intro m h
    simp [PeblarSelectEntity.current_option, hd, smartChargingDescription, h]

/-- Claim C4 witness: over a snapshot with the smart-charging field
unset, `current_option` evaluates to `none`. -/
theorem spec_C4_witness :
    sampleEntityUnset.entity_description ∈ DESCRIPTIONS ∧
    sampleEntityUnset.coordinator.data.smart_charging = none ∧
    sampleEntityUnset.current_option = none := by
  have h := spec_C4 sampleEntityUnset
    (by simp [sampleEntityUnset, sampleEntity, DESCRIPTIONS])
  exact ⟨by simp [sampleEntityUnset, sampleEntity, DESCRIPTIONS], rfl, h.1 rfl⟩

/-- Claim C5: every successful setup registers the device with
identifiers exactly the domain/serial pair and connections exactly the
Ethernet and WLAN MAC pairs tagged with the network-MAC connection
type, all taken from the system-information snapshot fetched exactly
once during the run. -/
theorem spec_C5 (env : SetupEnv) (s : SetupSuccess) (tr : List Ev)
    (si : SystemInformation)
    (h : async_setup_entry env = (.ok s, tr))
    (hsi : env.system_information_result = .ok si) :
    s.device_registration.identifiers = {(DOMAIN, si.product_serial_number)} ∧
    s.device_registration.connections =
      {(CONNECTION_NETWORK_MAC, si.ethernet_mac_address),
       (CONNECTION_NETWORK_MAC, si.wlan_mac_address)} ∧
    s.runtime_data.system_information = si ∧
    tr.count Ev.fetchSystemInformation = 1 := by
  obtain ⟨host, pw, eid, lr, sr, rr, mr, ur, vr⟩ := env
  rcases lr with a | u
  · exact absurd h (by simp [async_setup_entry])
  rcases sr with a | si'
  · exact absurd h (by simp [async_setup_entry])
  rcases rr with a | u2
  · exact absurd h (by simp [async_setup_entry])
  rcases mr with a | md
  · exact absurd h (by simp [async_setup_entry, gather3,
      Coordinator.async_config_entry_first_refresh])
  rcases ur with a | ud
  · exact absurd h (by simp [async_setup_entry, gather3,
      Coordinator.async_config_entry_first_refresh])
  rcases vr with a | vd
  · exact absurd h (by simp [async_setup_entry, gather3,
      Coordinator.async_config_entry_first_refresh])
  · have hsi' : si' = si := by simpa using hsi
    subst hsi'
    simp only [async_setup_entry, gather3,
      Coordinator.async_config_entry_first_refresh, Coordinator.refresh,
      Coordinator.new, Option.getD_some, Prod.mk.injEq, Except.ok.injEq] at h
    obtain ⟨hs, htr⟩ := h
    subst hs
    subst htr
    exact ⟨rfl, rfl, rfl, by decide⟩

/-- Claim C5 witness: the spec's concrete scenario with serial `ABC123`
and MACs `aa:bb:cc:dd:ee:ff` / `11:22:33:44:55:66`. -/
theorem spec_C5_witness :
    async_setup_entry sampleEnvOk = (.ok sampleSuccess, sampleFullTrace) ∧
    sampleEnvOk.system_information_result = .ok sampleSystemInformation ∧
    (sampleSuccess.device_registration.identifiers = {(DOMAIN, "ABC123")} ∧
     sampleSuccess.device_registration.connections =
       {(CONNECTION_NETWORK_MAC, "aa:bb:cc:dd:ee:ff"),
        (CONNECTION_NETWORK_MAC, "11:22:33:44:55:66")} ∧
     sampleSuccess.runtime_data.system_information = sampleSystemInformation ∧
     sampleFullTrace.count Ev.fetchSystemInformation = 1) := by
  have h := spec_C5 sampleEnvOk sampleSuccess sampleFullTrace
    sampleSystemInformation rfl rfl
  exact ⟨rfl, rfl, h⟩

/-- Claim C6: every successful setup run performs its steps in order —
login, then system-information fetch and REST-API enablement, before
the coordinators are constructed; the three first refreshes complete
before the runtime data is stored and the device registered; the device
is registered exactly once, before the entity platforms are set up. -/
theorem spec_C6 (env : SetupEnv) (s : SetupSuccess) (tr : List Ev)
    (h : async_setup_entry env = (.ok s, tr)) :
    tr = [Ev.login, Ev.fetchSystemInformation, Ev.enableRestApi,
          Ev.constructCoordinators, Ev.firstRefreshes, Ev.setRuntimeData,
          Ev.registerDevice, Ev.forwardPlatforms] ∧
    tr.count Ev.registerDevice = 1 := by
  obtain ⟨host, pw, eid, lr, sr, rr, mr, ur, vr⟩ := env
  rcases lr with a | u
  · exact absurd h (by simp [async_setup_entry])
  rcases sr with a | si
  · exact absurd h (by simp [async_setup_entry])
  rcases rr with a | u2
  · exact absurd h (by simp [async_setup_entry])
  rcases mr with a | md
  · exact absurd h (by simp [async_setup_entry, gather3,
      Coordinator.async_config_entry_first_refresh])
  rcases ur with a | ud
  · exact absurd h (by simp [async_setup_entry, gather3,
      Coordinator.async_config_entry_first_refresh])
  rcases vr with a | vd
  · exact absurd h (by simp [async_setup_entry, gather3,
      Coordinator.async_config_entry_first_refresh])
  · simp only [async_setup_entry, gather3,
      Coordinator.async_config_entry_first_refresh, Coordinator.refresh,
      Coordinator.new, Option.getD_some, Prod.mk.injEq, Except.ok.injEq] at h
    obtain ⟨hs, htr⟩ := h
    subst htr
    exact ⟨rfl, by decide⟩

/-- Claim C6 witness: a fully successful run performs exactly the full
ordered trace, registering the device once. -/
theorem spec_C6_witness :
    async_setup_entry sampleEnvOk = (.ok sampleSuccess, sampleFullTrace) ∧
    (sampleFullTrace = [Ev.login, Ev.fetchSystemInformation, Ev.enableRestApi,
        Ev.constructCoordinators, Ev.firstRefreshes, Ev.setRuntimeData,
        Ev.registerDevice, Ev.forwardPlatforms] ∧
     sampleFullTrace.count Ev.registerDevice = 1) := by
  have h := spec_C6 sampleEnvOk sampleSuccess sampleFullTrace rfl
  exact ⟨rfl, h⟩

/-- Claim C7: when the write accessor raises, the error propagates out
of `async_select_option`, no refresh of the user-configuration
coordinator is requested, and the coordinator's cached snapshot is
unchanged. -/
theorem spec_C7 (e : PeblarSelectEntity) (opt : String) (err : SelectFailure)
    (herr : (e.entity_description.select_fn e.coordinator.peblar opt).1 =
      .error err) :
    (e.async_select_option opt).1 = .error err ∧
    (e.async_select_option opt).2.coordinator.refresh_requests =
      e.coordinator.refresh_requests ∧
    (e.async_select_option opt).2.coordinator.data = e.coordinator.data := by
  rcases hsf : e.entity_description.select_fn e.coordinator.peblar opt with ⟨r, p⟩
  rw [hsf] at herr
  rcases r with a | u
  · have ha : a = err := by simpa using herr
    subst ha
    refine ⟨?_, ?_, ?_⟩ <;>
      simp [PeblarSelectEntity.async_select_option, hsf]
  · exact absurd herr (by simp)

/-- Claim C7 witness: with a vendor client whose write raises, the
error propagates, the refresh count stays zero and the snapshot keeps
the old mode. -/
theorem spec_C7_witness :
    (sampleEntityFailing.entity_description.select_fn
       sampleEntityFailing.coordinator.peblar "pure_solar").1 =
      .error (.peblarError (.otherError "boom")) ∧
    (sampleEntityFailing.async_select_option "pure_solar").1 =
      .error (.peblarError (.otherError "boom")) ∧
    (sampleEntityFailing.async_select_option "pure_solar").2.coordinator.refresh_requests = 0 ∧
    (sampleEntityFailing.async_select_option "pure_solar").2.coordinator.data =
      { smart_charging := some SmartChargingMode.default } := by
  have h := spec_C7 sampleEntityFailing "pure_solar"
    (.peblarError (.otherError "boom")) rfl
  exact ⟨rfl, h.1, h.2.1, h.2.2⟩

/-- Claim C8: one coordinator refresh — stated for every payload type,
covering all three coordinators (meter data, user configuration,
version info) — replaces the cached snapshot and resets the error state
on fetch success, and on fetch failure retains the previous snapshot
unchanged while recording the error. -/
theorem spec_C8 (α : Type) (c : Coordinator α) (a : α) (e : RefreshError) :
    ((c.refresh (.ok a)).data = some a ∧
     (c.refresh (.ok a)).last_exception = none ∧
     (c.refresh (.ok a)).last_update_success = true) ∧
    ((c.refresh (.error e)).data = c.data ∧
     (c.refresh (.error e)).last_exception = some e ∧
     (c.refresh (.error e)).last_update_success = false) := by
  simp [Coordinator.refresh]

/-- Claim C9: unloading an entry left by a successful setup tears down
exactly the platforms setup forwarded to, releases the charger session,
and returns success when the platform teardown succeeds. -/
theorem spec_C9 (env : SetupEnv) (s : SetupSuccess) (tr : List Ev)
    (st : EntryState)
    (h : async_setup_entry env = (.ok s, tr))
    (hst : st.set_up_platforms = s.forwarded_platforms) :
    async_unload_entry st true =
      (true, { set_up_platforms := [], session_open := false }) := by
  have hp : s.forwarded_platforms = PLATFORMS := by
    obtain ⟨host, pw, eid, lr, sr, rr, mr, ur, vr⟩ := env
    rcases lr with a | u
    · exact absurd h (by simp [async_setup_entry])
    rcases sr with a | si
    · exact absurd h (by simp [async_setup_entry])
    rcases rr with a | u2
    · exact absurd h (by simp [async_setup_entry])
    rcases mr with a | md
    · exact absurd h (by simp [async_setup_entry, gather3,
        Coordinator.async_config_entry_first_refresh])
    rcases ur with a | ud
    · exact absurd h (by simp [async_setup_entry, gather3,
        Coordinator.async_config_entry_first_refresh])
    rcases vr with a | vd
    · exact absurd h (by simp [async_setup_entry, gather3,
        Coordinator.async_config_entry_first_refresh])
    · have h1 := congrArg Prod.fst h
      simp only [async_setup_entry, gather3,
        Coordinator.async_config_entry_first_refresh, Coordinator.refresh,
        Coordinator.new, Option.getD_some, Except.ok.injEq] at h1
      subst h1
      rfl
  obtain ⟨sp, so⟩ := st
  have hsp : sp = PLATFORMS := by simpa [hp] using hst
  subst hsp
  cases so <;> decide

/-- Claim C9 witness: unloading the entry state a successful setup
leaves behind tears down every forwarded platform and closes the
session. -/
theorem spec_C9_witness :
    sampleEntryState.set_up_platforms = sampleSuccess.forwarded_platforms ∧
    async_unload_entry sampleEntryState true =
      (true, { set_up_platforms := [], session_open := false }) := by
  have h := spec_C9 sampleEnvOk sampleSuccess sampleFullTrace sampleEntryState
    rfl rfl
  exact ⟨rfl, h⟩

/-- Claim C10: every failed setup run — whether the failure happened at
login, the system-information fetch, the REST-API enablement, or a
first refresh — stores no runtime data, registers no device, and sets
up no entity platforms. -/
theorem spec_C10 (env : SetupEnv) (err : SetupError) (tr : List Ev)
    (h : async_setup_entry env = (.error err, tr)) :
    Ev.setRuntimeData ∉ tr ∧ Ev.registerDevice ∉ tr ∧
    Ev.forwardPlatforms ∉ tr := by
  obtain ⟨host, pw, eid, lr, sr, rr, mr, ur, vr⟩ := env
  rcases lr with a | u
  · have h2 := congrArg Prod.snd h
    simp only [async_setup_entry] at h2
    subst h2
    decide
  rcases sr with a | si
  · have h2 := congrArg Prod.snd h
    simp only [async_setup_entry] at h2
    subst h2
    decide
  rcases rr with a | u2
  · have h2 := congrArg Prod.snd h
    simp only [async_setup_entry] at h2
    subst h2
    decide
  rcases mr with a | md
  · have h2 := congrArg Prod.snd h
    simp only [async_setup_entry, gather3,
      Coordinator.async_config_entry_first_refresh] at h2
    subst h2
    decide
  rcases ur with a | ud
  · have h2 := congrArg Prod.snd h
    simp only [async_setup_entry, gather3,
      Coordinator.async_config_entry_first_refresh] at h2
    subst h2
    decide
  rcases vr with a | vd
  · have h2 := congrArg Prod.snd h
    simp only [async_setup_entry, gather3,
      Coordinator.async_config_entry_first_refresh] at h2
    subst h2
    decide
  · have h1 := congrArg Prod.fst h
    simp [async_setup_entry, gather3,
      Coordinator.async_config_entry_first_refresh] at h1

/-- Claim C10 witness: after a connection error during the
system-information fetch, the trace holds neither a runtime-data store,
nor a device registration, nor a platform setup. -/
theorem spec_C10_witness :
    async_setup_entry sampleEnvConnFail =
      (.error (.ConfigEntryNotReady "Could not connect to Peblar charger"),
       [Ev.login, Ev.fetchSystemInformation]) ∧
    (Ev.setRuntimeData ∉ [Ev.login, Ev.fetchSystemInformation] ∧
     Ev.registerDevice ∉ [Ev.login, Ev.fetchSystemInformation] ∧
     Ev.forwardPlatforms ∉ [Ev.login, Ev.fetchSystemInformation]) := by
  have h := spec_C10 sampleEnvConnFail
    (.ConfigEntryNotReady "Could not connect to Peblar charger")
    [Ev.login, Ev.fetchSystemInformation] rfl
  exact ⟨rfl, h⟩
